import Mathlib

/-!
Verification of the `azure_image_capture` Ansible module
(src/cloud/azure/azure_image_capture.py).

The development is a shallow embedding of the module's three pieces of
logic:

* `get_azure_connection_info` (lines 180-254): parameter /
  environment-variable resolution into a connection descriptor;
* `validate_configuration` (lines 256-262): credential presence check,
  whose failure branch references the free name `module`;
* `Capture.captureImages` (lines 286-304): the deallocate / generalize /
  capture remote-call chain and URI extraction, modelled over a mock of
  the Azure SDK client that records which calls were issued, waited on
  and had their result fetched.

Machine strings are Lean `String`; a Python value that may be `None` is
`Option String`; Python dict/list response payloads are the inductive
`Json`; exceptions are `Except` values.
-/

namespace AzureImageCapture

/-- Truthiness of an optional string as Python's `not x` sees it:
`None` and the empty string are falsy. -/
def falsy : Option String → Bool
  | none => true
  | some s => s.isEmpty

/-- The explicit module parameters, as returned by `module.params.get(...)`
(lines 181-189).  A parameter the caller did not supply is `none`.
`vhdPrefix` models the Python variable `vhd_prefix`. -/
structure ModuleParams where
  azure_url : Option String
  tenant_id : Option String
  client_id : Option String
  vhdPrefix : Option String
  client_secret : Option String
  vm_name : Option String
  destination_container : Option String
  resource_group_name : Option String
  subscription_id : Option String
deriving Repr, DecidableEq

/-- The process environment restricted to the ten variable names the
resolver consults (`os.environ`).  `none` means the variable is unset;
`some s` means it is set to `s` (possibly the empty string). -/
structure Env where
  VHD_PFX : Option String
  AZURE_URL : Option String
  AZURE_SUBSCRIPTION_ID : Option String
  AZURE_RESOURCE_GROUP_NAME : Option String
  VM_NAME : Option String
  DESTINATION_CONTAINER : Option String
  AZURE_TENANT_ID : Option String
  AZURE_DOMAIN : Option String
  AZURE_CLIENT_ID : Option String
  AZURE_CLIENT_SECRET : Option String
deriving Repr, DecidableEq

/-- The dict returned by `get_azure_connection_info` (lines 246-254). -/
structure ConnInfo where
  azure_url : Option String
  tenant_id : Option String
  client_id : Option String
  client_secret : Option String
  destination_container : Option String
  vm_name : Option String
  vhdPrefix : Option String
  resource_group_name : Option String
  subscription_id : Option String
deriving Repr, DecidableEq

/-- Translation of `ConfigurationHelper.get_azure_connection_info`
(lines 180-254).  Each Python `if not x: ...` block is rendered as a
rebinding `let`; note the two aliasing branches the source contains:
the `vhd_prefix` fallback assigns the `VHD_PREFIX` environment value to
the local `azure_url` (line 193), and the `destination_container`
fallback assigns the `DESTINATION_CONTAINER` environment value — or
`None` — to the local `vm_name` (lines 222 and 224). -/
def get_azure_connection_info (p : ModuleParams) (env : Env) : ConnInfo :=
  let azure_url := p.azure_url
  let tenant_id := p.tenant_id
  let client_id := p.client_id
  let vhdPrefix := p.vhdPrefix
  let client_secret := p.client_secret
  let vm_name := p.vm_name
  let destination_container := p.destination_container
  let resource_group_name := p.resource_group_name
  let subscription_id := p.subscription_id
  -- lines 191-195: `if not vhd_prefix: ...`
  let st :=
    if falsy vhdPrefix then
      match env.VHD_PFX with
      | some v => (some v, vhdPrefix)
      | none => (azure_url, (none : Option String))
    else (azure_url, vhdPrefix)
  let azure_url := st.1
  let vhdPrefix := st.2
  -- lines 196-200: `if not azure_url: ...`
  let azure_url :=
    if falsy azure_url then
      match env.AZURE_URL with
      | some v => some v
      | none => none
    else azure_url
  -- lines 202-206
  let subscription_id :=
    if falsy subscription_id then
      match env.AZURE_SUBSCRIPTION_ID with
      | some v => some v
      | none => none
    else subscription_id
  -- lines 208-212
  let resource_group_name :=
    if falsy resource_group_name then
      match env.AZURE_RESOURCE_GROUP_NAME with
      | some v => some v
      | none => none
    else resource_group_name
  -- lines 214-218
  let vm_name :=
    if falsy vm_name then
      match env.VM_NAME with
      | some v => some v
      | none => none
    else vm_name
  -- lines 220-224: the branch tests `destination_container` but assigns
  -- `vm_name` in both arms; `destination_container` itself is untouched.
  let vm_name :=
    if falsy destination_container then
      match env.DESTINATION_CONTAINER with
      | some v => some v
      | none => none
    else vm_name
  -- lines 226-232
  let tenant_id :=
    if falsy tenant_id then
      match env.AZURE_TENANT_ID with
      | some v => some v
      | none =>
        match env.AZURE_DOMAIN with
        | some v => some v
        | none => none
    else tenant_id
  -- lines 234-238
  let client_id :=
    if falsy client_id then
      match env.AZURE_CLIENT_ID with
      | some v => some v
      | none => none
    else client_id
  -- lines 240-244
  let client_secret :=
    if falsy client_secret then
      match env.AZURE_CLIENT_SECRET with
      | some v => some v
      | none => none
    else client_secret
  ⟨azure_url, tenant_id, client_id, client_secret, destination_container,
   vm_name, vhdPrefix, resource_group_name, subscription_id⟩

/-- Python exceptions that subscripting a response payload can raise. -/
inductive PyExc
  | keyError (k : String)
  | keyErrorInt (i : Nat)
  | indexError
  | typeError
deriving Repr, DecidableEq

/-- A Python response-payload value: strings, lists, dicts (association
lists) and `None`, the shapes `result.output` can take. -/
inductive Json
  | str (s : String)
  | arr (xs : List Json)
  | obj (fields : List (String × Json))
  | null
deriving Repr

/-- Subscripting with a string key, `j['k']`: on a dict it is a lookup
raising `KeyError` on a miss; on a list, string or `None` it raises
`TypeError`. -/
def Json.getKey : Json → String → Except PyExc Json
  | .obj fs, k =>
    match fs.lookup k with
    | some v => .ok v
    | none => .error (.keyError k)
  | _, _ => .error .typeError

/-- Subscripting with an integer, `j[i]`: on a list it indexes, raising
`IndexError` out of range; on a string it yields the one-character
substring or raises `IndexError`; on a dict it raises `KeyError(i)`;
on `None` it raises `TypeError`. -/
def Json.getIdx : Json → Nat → Except PyExc Json
  | .arr xs, i =>
    match xs.get? i with
    | some v => .ok v
    | none => .error .indexError
  | .str s, i =>
    match s.toList.get? i with
    | some c => .ok (.str (String.mk [c]))
    | none => .error .indexError
  | .obj _, i => .error (.keyErrorInt i)
  | .null, _ => .error .typeError

/-- The extraction expression of lines 301-302:
`result.output['resources'][0]['properties']['storageProfile']['osDisk']['image']['uri']`,
applied to the `output` attribute of the capture result. -/
def extract_blob_uri (output : Json) : Except PyExc Json := do
  let r1 ← output.getKey "resources"
  let r2 ← r1.getIdx 0
  let r3 ← r2.getKey "properties"
  let r4 ← r3.getKey "storageProfile"
  let r5 ← r4.getKey "osDisk"
  let r6 ← r5.getKey "image"
  r6.getKey "uri"

/-- Pure dict lookup on a payload, used only by `spec_uri_path`. -/
def objGet : Json → String → Option Json
  | .obj fs, k => fs.lookup k
  | _, _ => none

/-- Pure list indexing on a payload, used only by `spec_uri_path`. -/
def arrGet : Json → Nat → Option Json
  | .arr xs, i => xs.get? i
  | _, _ => none

/-- Modelled from the spec: the fixed nested path
resources[0] → properties → storageProfile → osDisk → image → uri, as a
pure structural lookup.  This is the spec-side description of where the
image URI lives, to be compared with the source-side `extract_blob_uri`. -/
def spec_uri_path (j : Json) : Option Json :=
  (objGet j "resources").bind fun r1 =>
  (arrGet r1 0).bind fun r2 =>
  (objGet r2 "properties").bind fun r3 =>
  (objGet r3 "storageProfile").bind fun r4 =>
  (objGet r4 "osDisk").bind fun r5 =>
  (objGet r5 "image").bind fun r6 =>
  objGet r6 "uri"

/-- The three remote virtual-machine operations `captureImages` invokes. -/
inductive Call
  | deallocate
  | generalize
  | capture
deriving Repr, DecidableEq

/-- Observable events of one `captureImages` invocation: a remote call
being issued, a blocking `.wait()` on its operation, and fetching the
operation's result. -/
inductive Ev
  | issued (c : Call)
  | waited (c : Call)
  | fetchedResult (c : Call)
deriving Repr, DecidableEq

/-- Errors a `captureImages` invocation can surface: a remote-call
failure at a given step, or a Python exception raised while extracting
the blob URI from the result payload. -/
inductive CaptureError
  | remote (c : Call) (msg : String)
  | extraction (e : PyExc)
deriving Repr, DecidableEq

/-- A mock of `self._client.virtual_machines`: for each remote call,
whether issuing it raises, whether waiting on its operation raises, and
the `output` payload of the capture operation's result.  `Except.error m`
models a raised exception with message `m`. -/
structure MockVmOps where
  deallocate_issue : Except String Unit
  deallocate_wait : Except String Unit
  generalize_issue : Except String Unit
  capture_issue : Except String Unit
  capture_wait : Except String Unit
  capture_result : Json
deriving Repr

/-- Translation of `Capture.captureImages` (lines 286-304) over the mock
client.  The Python statements are, in order:
`vmOps.deallocate(rg, vm).wait()` — issue then block;
`vmOps.generalize(rg, vm)` — issue, no wait;
`operation = vmOps.capture(rg, vm, params)` — issue;
`operation.wait()` — block; `result = operation.result()` — fetch;
then the `blob_uri` extraction and `return blob_uri`.  A raised
exception aborts the remaining statements, as in Python.  The returned
pair is the event trace and the outcome. -/
def captureImages (ops : MockVmOps) : List Ev × Except CaptureError Json :=
  match ops.deallocate_issue with
  | .error m => ([.issued .deallocate], .error (.remote .deallocate m))
  | .ok _ =>
    match ops.deallocate_wait with
    | .error m =>
      ([.issued .deallocate, .waited .deallocate],
       .error (.remote .deallocate m))
    | .ok _ =>
      match ops.generalize_issue with
      | .error m =>
        ([.issued .deallocate, .waited .deallocate, .issued .generalize],
         .error (.remote .generalize m))
      | .ok _ =>
        match ops.capture_issue with
        | .error m =>
          ([.issued .deallocate, .waited .deallocate, .issued .generalize,
            .issued .capture],
           .error (.remote .capture m))
        | .ok _ =>
          match ops.capture_wait with
          | .error m =>
            ([.issued .deallocate, .waited .deallocate, .issued .generalize,
              .issued .capture, .waited .capture],
             .error (.remote .capture m))
          | .ok _ =>
            match extract_blob_uri ops.capture_result with
            | .error e =>
              ([.issued .deallocate, .waited .deallocate, .issued .generalize,
                .issued .capture, .waited .capture, .fetchedResult .capture],
               .error (.extraction e))
            | .ok uri =>
              ([.issued .deallocate, .waited .deallocate, .issued .generalize,
                .issued .capture, .waited .capture, .fetchedResult .capture],
               .ok uri)

/-- Outcome of a call to `validate_configuration`. -/
inductive ValidateOutcome
  | ok
  | failJson (msg : String)
  | nameError (n : String)
deriving Repr, DecidableEq

/-- The names the module file binds at top level: the three documentation
strings, the four names from the azure SDK imports, `HAS_DEPS`, the two
classes and `main` (the wildcard `from ansible.module_utils.basic import *`
at line 346 brings in the framework's exported helpers — `AnsibleModule`
and friends — none of them named `module`; `module` is a local variable
of `main`, line 318). -/
def fileGlobalNames : List String :=
  ["DOCUMENTATION", "EXAMPLES", "RETURN",
   "ComputeManagementClientConfiguration", "ComputeManagementClient",
   "VirtualMachineCaptureParameters", "ServicePrincipalCredentials",
   "HAS_DEPS", "ConfigurationHelper", "Capture", "main", "AnsibleModule"]

/-- The message of line 261-262 (Python continuation-line whitespace
included verbatim). -/
def missingCredsMsg : String :=
  "security token or client_id,                                  client_secret and tenant_id is required"

/-- Translation of `ConfigurationHelper.validate_configuration`
(lines 256-262).  The guard tests `is None` on the three credential
fields; its body evaluates the global name `module`, which resolves
against `fileGlobalNames` and therefore raises `NameError` instead of
reaching `module.fail_json`. -/
def validate_configuration (conn : ConnInfo) : ValidateOutcome :=
  if conn.client_id = none ∨ conn.client_secret = none ∨
      conn.tenant_id = none then
    if fileGlobalNames.contains "module" then
      ValidateOutcome.failJson missingCredsMsg
    else
      ValidateOutcome.nameError "module"
  else
    ValidateOutcome.ok

/-- Milestones of one `main` invocation (lines 307-343), in the order
they can occur. -/
inductive MainEv
  | resolvedConfig
  | validatedOk
  | invokedSequencer
  | exitedJson
deriving Repr, DecidableEq

/-- Outcome of one `main` invocation. -/
inductive MainOutcome
  | failJson (msg : String)
  | raisedNameError (n : String)
  | captureFailed (e : CaptureError)
  | succeeded (uri : Json)
deriving Repr

/-- Translation of `main` (lines 307-343): the dependency check, a call
to `get_azure_connection_info`, a call to `validate_configuration`
(whose `NameError` propagates and aborts `main`), then construction of
`Capture` and the `captureImages` invocation.  The mock `ops` stands in
for the authenticated SDK client. -/
def main_run (hasDeps : Bool) (p : ModuleParams) (env : Env)
    (ops : MockVmOps) : List MainEv × MainOutcome :=
  if hasDeps = false then
    ([], .failJson "azure@2.0 and above is required for this module")
  else
    let conn := get_azure_connection_info p env
    match validate_configuration conn with
    | .failJson m => ([.resolvedConfig], .failJson m)
    | .nameError n => ([.resolvedConfig], .raisedNameError n)
    | .ok =>
      match captureImages ops with
      | (_, .error e) =>
        ([.resolvedConfig, .validatedOk, .invokedSequencer], .captureFailed e)
      | (_, .ok uri) =>
        ([.resolvedConfig, .validatedOk, .invokedSequencer, .exitedJson],
         .succeeded uri)

/-! Concrete inputs used by the closed theorems and witnesses. -/

/-- An environment with none of the ten variables set. -/
def emptyEnv : Env :=
  ⟨none, none, none, none, none, none, none, none, none, none⟩

/-- A fully explicit parameter bag except for `destination_container`
and `azure_url`. -/
def paramsC1 : ModuleParams :=
  ⟨none, some "tenant", some "client", some "vm-osdisk", some "secret",
   some "myvm", none, some "rg", some "sub"⟩

/-- An environment that sets only DESTINATION_CONTAINER. -/
def envC1 : Env :=
  ⟨none, none, none, none, none, some "copiedvhds", none, none, none, none⟩

/-- A parameter bag whose only explicit value is `azure_url`. -/
def paramsC2 : ModuleParams :=
  ⟨some "http://url-param", none, none, none, none, none, none, none, none⟩

/-- An environment that sets only VHD_PREFIX. -/
def envC2 : Env :=
  ⟨some "pfx-from-env", none, none, none, none, none, none, none, none, none⟩

/-- A parameter bag with every parameter absent. -/
def paramsAbsent : ModuleParams :=
  ⟨none, none, none, none, none, none, none, none, none⟩

/-- A fully explicit parameter bag except for `client_secret` and
`azure_url`. -/
def paramsC4 : ModuleParams :=
  ⟨none, some "tenant", some "client", some "vm-osdisk", none,
   some "myvm", some "copiedvhds", some "rg", some "sub"⟩

/-- The capture-result payload of the spec example: the image URI
sits at resources[0] → properties → storageProfile → osDisk → image →
uri. -/
def goodPayload : Json :=
  .obj [("resources", .arr [.obj [("properties", .obj [("storageProfile",
    .obj [("osDisk", .obj [("image",
      .obj [("uri", .str "http://example/img.vhd")])])])])]])]

/-- A malformed capture-result payload: resources[0].properties lacks
the storageProfile key. -/
def badPayload : Json :=
  .obj [("resources", .arr [.obj [("properties",
    .obj [("osProfile", .null)])]])]

/-- A mock client on which every remote call and wait succeeds and the
capture result carries the spec example payload. -/
def okOps : MockVmOps :=
  ⟨.ok (), .ok (), .ok (), .ok (), .ok (), goodPayload⟩

/-- A mock client that succeeds remotely but returns the malformed
payload. -/
def badExtractOps : MockVmOps :=
  ⟨.ok (), .ok (), .ok (), .ok (), .ok (), badPayload⟩

/-- A mock client whose generalize call raises. -/
def genFailOps : MockVmOps :=
  ⟨.ok (), .ok (), .error "generalize refused", .ok (), .ok (), goodPayload⟩

/-- A descriptor with every field absent. -/
def connAbsent : ConnInfo :=
  ⟨none, none, none, none, none, none, none, none, none⟩

/-! Helper lemmas relating the spec-side path lookup to the source-side
extraction expression. -/

/-- A successful pure dict lookup agrees with Python string
subscripting. -/
lemma getKey_of_objGet {j : Json} {k : String} {v : Json}
    (h : objGet j k = some v) : Json.getKey j k = Except.ok v := by
  cases j with
  | obj fs =>
    simp [objGet] at h
    simp [Json.getKey, h]
  | str s => simp [objGet] at h
  | arr xs => simp [objGet] at h
  | null => simp [objGet] at h

/-- A successful pure list lookup agrees with Python integer
subscripting. -/
lemma getIdx_of_arrGet {j : Json} {i : Nat} {v : Json}
    (h : arrGet j i = some v) : Json.getIdx j i = Except.ok v := by
  cases j with
  | arr xs =>
    simp [arrGet] at h
    simp [Json.getIdx, h]
  | str s => simp [arrGet] at h
  | obj fs => simp [arrGet] at h
  | null => simp [arrGet] at h

/-- Whenever the fixed path of the spec yields a value, the extraction
expression of lines 301-302 returns exactly that value. -/
lemma extract_of_spec_path {j v : Json}
    (h : spec_uri_path j = some v) : extract_blob_uri j = Except.ok v := by
  simp only [spec_uri_path, Option.bind_eq_some] at h
  obtain ⟨r1, h1, r2, h2, r3, h3, r4, h4, r5, h5, r6, h6, h7⟩ := h
  simp [extract_blob_uri, bind, Except.bind, getKey_of_objGet h1,
    getIdx_of_arrGet h2, getKey_of_objGet h3, getKey_of_objGet h4,
    getKey_of_objGet h5, getKey_of_objGet h6, getKey_of_objGet h7]

/-! The claims. -/

/-- C1: the claim says destination_container resolves from its own
DESTINATION_CONTAINER environment variable and that the
destination_container fallback never changes the vm_name field.  The
code refutes both conjuncts at once: with destination_container absent,
DESTINATION_CONTAINER set to "copiedvhds" and vm_name explicitly
"myvm", the resolver leaves destination_container absent and overwrites
vm_name with "copiedvhds" (lines 220-224 assign the environment value
into `vm_name`). -/
theorem c1_destination_container_env_lands_in_vm_name :
    paramsC1.vm_name = some "myvm" ∧
    paramsC1.destination_container = none ∧
    envC1.DESTINATION_CONTAINER = some "copiedvhds" ∧
    (get_azure_connection_info paramsC1 envC1).destination_container
      = none ∧
    (get_azure_connection_info paramsC1 envC1).vm_name
      = some "copiedvhds" :=
  ⟨rfl, rfl, rfl, rfl, rfl⟩

/-- C2: the claim says an explicit parameter value always wins over any
environment-variable setting.  The code refutes it for azure_url: with
azure_url explicitly "http://url-param", vhd_prefix absent and
VHD_PREFIX set to "pfx-from-env", the vhd_prefix fallback (line 193)
overwrites azure_url with the environment value, so the resolver
returns "pfx-from-env" instead of the explicit value. -/
theorem c2_explicit_azure_url_overridden_by_vhd_env :
    paramsC2.azure_url = some "http://url-param" ∧
    envC2.VHD_PFX = some "pfx-from-env" ∧
    (get_azure_connection_info paramsC2 envC2).azure_url
      = some "pfx-from-env" :=
  ⟨rfl, rfl, rfl⟩

/-- C3: the claim says a field whose explicit parameter and whose own
environment variable are both absent resolves to absent.  The code
refutes it for vm_name: with every parameter absent and only
DESTINATION_CONTAINER set, vm_name — whose parameter and VM_NAME
variable are both absent — resolves to the DESTINATION_CONTAINER value
through the aliasing branch of lines 220-224. -/
theorem c3_vm_name_filled_though_param_and_env_absent :
    paramsAbsent.vm_name = none ∧
    envC1.VM_NAME = none ∧
    (get_azure_connection_info paramsAbsent envC1).vm_name
      = some "copiedvhds" :=
  ⟨rfl, rfl, rfl⟩

/-- C4: the claim says a descriptor missing client_secret makes
validation fail with the MissingCredentials message before the
sequencer runs.  The code does abort before the sequencer, but the
failure is a NameError on the undefined global `module` (line 261
references the local of `main`), not the MissingCredentials fail_json:
on a parameter bag missing only client_secret, validation evaluates to
`nameError "module"` and `main` stops without ever invoking the capture
sequencer. -/
theorem c4_missing_client_secret_raises_name_error :
    validate_configuration (get_azure_connection_info paramsC4 emptyEnv)
      = ValidateOutcome.nameError "module" ∧
    main_run true paramsC4 emptyEnv okOps
      = ([MainEv.resolvedConfig], MainOutcome.raisedNameError "module") ∧
    MainEv.invokedSequencer ∉ (main_run true paramsC4 emptyEnv okOps).1 := by
  refine ⟨rfl, rfl, ?_⟩
  decide

/-- C5: every invocation of the capture sequence on a client whose
operations succeed issues exactly the three remote calls deallocate,
generalize, capture in that order, waits on deallocate before issuing
generalize, issues generalize without any wait, and waits on capture
before fetching its result. -/
theorem c5_capture_call_order (ops : MockVmOps)
    (h1 : ops.deallocate_issue = Except.ok ())
    (h2 : ops.deallocate_wait = Except.ok ())
    (h3 : ops.generalize_issue = Except.ok ())
    (h4 : ops.capture_issue = Except.ok ())
    (h5 : ops.capture_wait = Except.ok ()) :
    (captureImages ops).1 =
      [Ev.issued Call.deallocate, Ev.waited Call.deallocate,
       Ev.issued Call.generalize, Ev.issued Call.capture,
       Ev.waited Call.capture, Ev.fetchedResult Call.capture] := by
  unfold captureImages
  rw [h1, h2, h3, h4, h5]
  cases h : extract_blob_uri ops.capture_result <;> rfl

/-- Witness for C5 at the concrete all-success mock client. -/
theorem c5_capture_call_order_witness :
    (captureImages okOps).1 =
      [Ev.issued Call.deallocate, Ev.waited Call.deallocate,
       Ev.issued Call.generalize, Ev.issued Call.capture,
       Ev.waited Call.capture, Ev.fetchedResult Call.capture] :=
  c5_capture_call_order okOps rfl rfl rfl rfl rfl

/-- C6: on a successful remote chain whose result payload holds a string
at the fixed nested path resources[0] → properties → storageProfile →
osDisk → image → uri, captureImages returns exactly that string and
nothing else of the payload. -/
theorem c6_capture_returns_exact_uri (ops : MockVmOps) (s : String)
    (h1 : ops.deallocate_issue = Except.ok ())
    (h2 : ops.deallocate_wait = Except.ok ())
    (h3 : ops.generalize_issue = Except.ok ())
    (h4 : ops.capture_issue = Except.ok ())
    (h5 : ops.capture_wait = Except.ok ())
    (h6 : spec_uri_path ops.capture_result = some (Json.str s)) :
    (captureImages ops).2 = Except.ok (Json.str s) := by
  unfold captureImages
  rw [h1, h2, h3, h4, h5, extract_of_spec_path h6]

/-- Witness for C6 at the spec example payload, whose URI is
"http://example/img.vhd". -/
theorem c6_capture_returns_exact_uri_witness :
    (captureImages okOps).2 = Except.ok (Json.str "http://example/img.vhd") :=
  c6_capture_returns_exact_uri okOps "http://example/img.vhd"
    rfl rfl rfl rfl rfl rfl

/-- C7: whenever the result payload makes the fixed extraction path
fail with a Python exception (a missing key, a bad index or a wrongly
typed node), captureImages fails with an ExtractionError carrying that
exception rather than succeeding or failing as a remote error. -/
theorem c7_malformed_payload_extraction_error (ops : MockVmOps) (e : PyExc)
    (h1 : ops.deallocate_issue = Except.ok ())
    (h2 : ops.deallocate_wait = Except.ok ())
    (h3 : ops.generalize_issue = Except.ok ())
    (h4 : ops.capture_issue = Except.ok ())
    (h5 : ops.capture_wait = Except.ok ())
    (h6 : extract_blob_uri ops.capture_result = Except.error e) :
    (captureImages ops).2 = Except.error (CaptureError.extraction e) := by
  unfold captureImages
  rw [h1, h2, h3, h4, h5, h6]

/-- Witness for C7 at the payload missing the storageProfile key: the
failure is the ExtractionError wrapping KeyError("storageProfile"). -/
theorem c7_malformed_payload_extraction_error_witness :
    (captureImages badExtractOps).2 =
      Except.error (CaptureError.extraction (PyExc.keyError "storageProfile")) :=
  c7_malformed_payload_extraction_error badExtractOps
    (PyExc.keyError "storageProfile") rfl rfl rfl rfl rfl rfl

/-- C8: when the remote generalize call fails, the sequence fails with a
generalize remote error and the capture call is never issued. -/
theorem c8_generalize_failure_stops_sequence (ops : MockVmOps) (m : String)
    (h1 : ops.deallocate_issue = Except.ok ())
    (h2 : ops.deallocate_wait = Except.ok ())
    (h3 : ops.generalize_issue = Except.error m) :
    captureImages ops =
      ([Ev.issued Call.deallocate, Ev.waited Call.deallocate,
        Ev.issued Call.generalize],
       Except.error (CaptureError.remote Call.generalize m)) ∧
    Ev.issued Call.capture ∉ (captureImages ops).1 := by
  have h : captureImages ops =
      ([Ev.issued Call.deallocate, Ev.waited Call.deallocate,
        Ev.issued Call.generalize],
       Except.error (CaptureError.remote Call.generalize m)) := by
    unfold captureImages
    rw [h1, h2, h3]
  refine ⟨h, ?_⟩
  rw [h]
  simp

/-- Witness for C8 at a mock client whose generalize call raises. -/
theorem c8_generalize_failure_stops_sequence_witness :
    captureImages genFailOps =
      ([Ev.issued Call.deallocate, Ev.waited Call.deallocate,
        Ev.issued Call.generalize],
       Except.error (CaptureError.remote Call.generalize "generalize refused")) ∧
    Ev.issued Call.capture ∉ (captureImages genFailOps).1 :=
  c8_generalize_failure_stops_sequence genFailOps "generalize refused"
    rfl rfl rfl

/-- C9: when the explicit vhd_prefix parameter is absent (falsy) and
VHD_PREFIX is set to v, the resolver leaves the vhd_prefix field at the
explicit parameter value — never filling it from the environment — and
puts v into the azure_url field, where it stands unless v is the empty
string, in which case the azure_url fallback replaces it with the
AZURE_URL value. -/
theorem c9_vhd_env_fills_azure_url (p : ModuleParams) (env : Env)
    (v : String)
    (h1 : falsy p.vhdPrefix = true) (h2 : env.VHD_PFX = some v) :
    (get_azure_connection_info p env).vhdPrefix = p.vhdPrefix ∧
    (get_azure_connection_info p env).azure_url =
      (if v.isEmpty then env.AZURE_URL else some v) := by
  simp only [get_azure_connection_info, h1, h2, if_true]
  constructor
  · trivial
  · by_cases hv : v.isEmpty
    · simp [falsy, hv]
      cases env.AZURE_URL <;> rfl
    · simp [falsy, hv]

/-- Witness for C9: with every parameter absent and only VHD_PREFIX set
to "pfx-from-env", vhd_prefix resolves to absent while azure_url
resolves to "pfx-from-env". -/
theorem c9_vhd_env_fills_azure_url_witness :
    (get_azure_connection_info paramsAbsent envC2).vhdPrefix = none ∧
    (get_azure_connection_info paramsAbsent envC2).azure_url
      = some "pfx-from-env" := by
  have h := c9_vhd_env_fills_azure_url paramsAbsent envC2 "pfx-from-env"
    rfl rfl
  simpa [paramsAbsent, envC2] using h

/-- C10: for every descriptor missing at least one of client_id,
client_secret or tenant_id, validate_configuration raises NameError on
the undefined global `module` instead of reaching the fail_json branch
that would report the MissingCredentials message. -/
theorem c10_validate_raises_name_error (conn : ConnInfo)
    (h : conn.client_id = none ∨ conn.client_secret = none ∨
      conn.tenant_id = none) :
    validate_configuration conn = ValidateOutcome.nameError "module" := by
  unfold validate_configuration
  rw [if_pos h]
  rfl

/-- Witness for C10 at the all-absent descriptor. -/
theorem c10_validate_raises_name_error_witness :
    validate_configuration connAbsent = ValidateOutcome.nameError "module" :=
  c10_validate_raises_name_error connAbsent (Or.inl rfl)

end AzureImageCapture
